import Mathlib

/-!
Shallow embedding of the Review-AI backend (`src/main.py`) and proofs of the
specification claims C1-C10.

Modelling conventions:
* Python lists become Lean `List`s; dictionaries with a fixed shape become
  structures.
* Randomness (`random.sample`, `random.choices`, `random.shuffle`) is made
  explicit: every random primitive takes the draws it would have made from the
  random source as an extra argument (`RandSrc`).  Theorems quantify over all
  draws, and where Python's generator guarantees a shape (e.g. `random.sample`
  draws two distinct in-range indices) that guarantee appears as a hypothesis.
* Python exceptions (`ValueError` from `random.sample`, `IndexError` /
  `ValueError` from `random.choices` on an empty population) become
  `Except PyError`, with the single abstract error the spec calls
  `InvalidInputError`.
* The two external collaborators (Groq text generation, Google Places lookup)
  are modelled as oracle inputs describing their outcome for the one call the
  handler makes; the calls actually issued are recorded in an `ExtCall` trace.
-/

namespace ReviewAI

/-- Entry of the `seo_keywords` table: a word with its sampling weight. -/
structure SeoKeyword where
  word : String
  weight : Nat
deriving DecidableEq, Repr

/-- The keyword table built by `load_keywords` (`main.py` lines 30-55). -/
structure KeywordData where
  user_keywords : List String
  backend_keywords : List String
  seo_keywords : List SeoKeyword
deriving DecidableEq, Repr

/-- Abstract error raised by the sampling primitives on invalid input
(Python raises `ValueError` from `random.sample` and `IndexError` from
`random.choices` on an empty weighted population; the spec abstracts both as
`InvalidInputError`). -/
inductive PyError where
  | invalidInput
deriving DecidableEq, Repr

/-- The draws one call of `generate_prompt` consumes from the global random
source: the two indices `random.sample` picks, the index sequence
`random.choices` picks, and the permutation `random.shuffle` applies. -/
structure RandSrc where
  sampleI : Nat
  sampleJ : Nat
  choiceDraws : List Nat
  shufflePerm : List Nat
deriving DecidableEq, Repr

/-- `load_keywords` (`main.py` lines 30-55): the fixed keyword table,
rebuilt as a literal on every call. -/
def load_keywords : KeywordData :=
  ⟨["delicious", "amazing", "fantastic", "excellent", "outstanding",
    "tasty", "authentic", "fresh", "crispy", "spicy",
    "flavorful", "traditional", "hygienic", "affordable", "quick service",
    "friendly staff", "clean", "homely", "perfect", "mouth-watering"],
   ["highly recommend", "great experience", "will visit again", "worth trying",
    "exceeded expectations", "perfect taste", "amazing quality", "best in surat",
    "authentic gujarati", "reasonable price", "excellent service", "fresh preparation"],
   [⟨"dal pakwan", 10⟩, ⟨"gujarati food", 9⟩, ⟨"surat restaurant", 8⟩,
    ⟨"street food", 7⟩, ⟨"traditional", 6⟩, ⟨"authentic", 8⟩,
    ⟨"quality", 7⟩, ⟨"taste", 9⟩, ⟨"snacks", 5⟩, ⟨"mota varachha", 4⟩]⟩

/-- `random.sample(l, 2)` (`main.py` line 63): raises `ValueError` when the
population has fewer than 2 elements, otherwise returns the elements at the
two indices `i ≠ j` drawn by the generator (`i`, `j` are the random draws;
Python's generator only produces in-range distinct indices, captured by
`sampleValid` in the theorems). -/
def pySample2 (l : List String) (i j : Nat) : Except PyError (List String) :=
  if l.length < 2 then .error .invalidInput
  else .ok [l.getD i "", l.getD j ""]

/-- Validity of the index pair `random.sample(l, 2)` draws internally:
two distinct in-range positions. -/
def sampleValid (l : List String) (i j : Nat) : Prop :=
  i < l.length ∧ j < l.length ∧ i ≠ j

instance (l : List String) (i j : Nat) : Decidable (sampleValid l i j) := by
  unfold sampleValid; infer_instance

/-- `random.choices(population, weights=weights, k=k)`: in CPython, after
checking that the weight list matches the population, it evaluates
`cum_weights[-1]` (an `IndexError` on an empty population) and rejects a
non-positive total weight; otherwise it returns `k` draws, here given by the
index list `draws` (draw `t` picks `population[draws[t]]`). -/
def pyChoices (population : List String) (weights : List Nat) (k : Nat)
    (draws : List Nat) : Except PyError (List String) :=
  if weights.length ≠ population.length then .error .invalidInput
  else if population.isEmpty then .error .invalidInput
  else if weights.sum = 0 then .error .invalidInput
  else .ok ((List.range k).map fun t => population.getD (draws.getD t 0) "")

/-- `select_weighted_seo` (`main.py` lines 57-60): project the table into the
word and weight columns and call `random.choices`. -/
def select_weighted_seo (seo_keywords : List SeoKeyword) (count : Nat)
    (draws : List Nat) : Except PyError (List String) :=
  pyChoices (seo_keywords.map (fun k => k.word))
    (seo_keywords.map (fun k => k.weight)) count draws

/-- Whether `p` is a permutation of the index range `0..n-1`. -/
def isValidPerm (p : List Nat) (n : Nat) : Bool :=
  decide (p.length = n ∧ ∀ i < n, i ∈ p)

/-- Reorder `l` by the index list `p`. -/
def applyPerm (p : List Nat) (l : List String) : List String :=
  p.map fun i => l.getD i ""

/-- `random.shuffle(l)` (`main.py` line 66): the new contents of the shuffled
list, given the permutation `p` the generator chose (Python always applies a
genuine permutation; an out-of-shape `p` is treated as the identity). -/
def pyShuffle (p : List Nat) (l : List String) : List String :=
  if isValidPerm p l.length then applyPerm p l else l

/-- Python `sep.join(l)`. -/
def pyJoin (sep : String) : List String → String
  | [] => ""
  | [x] => x
  | x :: y :: xs => x ++ sep ++ pyJoin sep (y :: xs)

/-- `RESTAURANT_NAME` (`main.py` line 27). -/
def RESTAURANT_NAME : String := "Hari Krushna Dal Pakwan"

/-- `RESTAURANT_ADDRESS` (`main.py` line 28). -/
def RESTAURANT_ADDRESS : String :=
  "24, Ambika Pinakal, Lajamni Chowk, Maruti Dham Society, Mota Varachha, Surat, Gujarat 394101"

/-- Text of the prompt template before the joined keyword list
(`main.py` lines 68-70, with `RESTAURANT_NAME` interpolated). -/
def templateHead : String :=
  "You\x27re a satisfied customer leaving a short review (under 50 words) about \x27Hari Krushna Dal Pakwan\x27 - a popular dal pakwan restaurant in Surat, Gujarat. Make it sound human, sincere, and natural. Use the following keywords organically in the review:\n"

/-- Text of the prompt template after the joined keyword list
(`main.py` lines 70-72). -/
def templateTail : String :=
  ".\nKeep the tone friendly and helpful. Focus on the food quality, taste, and dining experience. Mention specific items like dal pakwan if appropriate."

/-- The template applied to the shuffled keyword list (`main.py` lines 67-73). -/
def mkPrompt (all_keywords : List String) : String :=
  templateHead ++ pyJoin ", " all_keywords ++ templateTail

/-- `generate_prompt` (`main.py` lines 62-73): sample two backend phrases,
two weighted SEO terms, concatenate with the caller's keywords, shuffle the
fresh combined list and fill the template. -/
def generate_prompt (user_keywords : List String) (keyword_data : KeywordData)
    (r : RandSrc) : Except PyError String :=
  match pySample2 keyword_data.backend_keywords r.sampleI r.sampleJ with
  | .error e => .error e
  | .ok backend =>
    match select_weighted_seo keyword_data.seo_keywords 2 r.choiceDraws with
    | .error e => .error e
    | .ok seo =>
      let all_keywords := pyShuffle r.shufflePerm (user_keywords ++ backend ++ seo)
      .ok (mkPrompt all_keywords)

/-- Substring relation on strings: `sub` occurs inside `s`. -/
def strContains (s sub : String) : Prop :=
  sub.data <:+: s.data

instance (s sub : String) : Decidable (strContains s sub) := by
  unfold strContains; infer_instance

/-- Python `str.strip()` applied to the Groq reply (`main.py` line 118). -/
def pyStrip (s : String) : String :=
  ⟨((s.data.dropWhile Char.isWhitespace).reverse.dropWhile Char.isWhitespace).reverse⟩

/-- Characters `urllib.parse.quote` leaves unescaped with the default
`safe` set: unreserved characters plus the slash. -/
def isUrlSafe (c : Char) : Bool :=
  c.isAlphanum || c == '_' || c == '.' || c == '-' || c == '~' || c == '/'

/-- Upper-case hexadecimal digit for `0 ≤ n < 16`. -/
def hexDigit (n : Nat) : Char :=
  if n < 10 then Char.ofNat (48 + n) else Char.ofNat (55 + n)

/-- UTF-8 encoding of one character, as byte values. -/
def utf8Bytes (c : Char) : List Nat :=
  let n := c.toNat
  if n < 128 then [n]
  else if n < 2048 then [192 + n / 64, 128 + n % 64]
  else if n < 65536 then [224 + n / 4096, 128 + n / 64 % 64, 128 + n % 64]
  else [240 + n / 262144, 128 + n / 4096 % 64, 128 + n / 64 % 64, 128 + n % 64]

/-- Quoting of a single character: kept if safe, else percent-encoded
byte by byte. -/
def pyQuoteChar (c : Char) : List Char :=
  if isUrlSafe c then [c]
  else (utf8Bytes c).flatMap fun b => ['%', hexDigit (b / 16), hexDigit (b % 16)]

/-- `requests.utils.quote` (= `urllib.parse.quote` with its default safe set),
used to build the fallback search URL (`main.py` lines 126, 149, 155). -/
def pyQuote (s : String) : String :=
  ⟨s.data.flatMap pyQuoteChar⟩

/-- The generic search URL built when no place id is available
(`main.py` lines 126, 149, 155). -/
def googleSearchUrl : String :=
  "https://www.google.com/search?q=" ++
    pyQuote (RESTAURANT_NAME ++ " " ++ RESTAURANT_ADDRESS ++ " write review")

/-- The deep-link review URL built from a place id (`main.py` lines 123, 147). -/
def writeReviewUrl (pid : String) : String :=
  "https://search.google.com/local/writereview?placeid=" ++ pid

/-- Outcome of the one HTTP round trip `get_google_place_id` makes:
either the request/JSON decoding raised (network failure, malformed body),
or a decoded JSON object with its optional `status` field and its
`candidates` list, each candidate reduced to its optional `place_id` field
(a missing `place_id` key raises `KeyError` on access). -/
inductive PlacesResult where
  | failure
  | response (status : Option String) (candidates : List (Option String))
deriving DecidableEq, Repr

/-- External calls a handler can make, in order. -/
inductive ExtCall where
  | groqCall
  | placesCall
deriving DecidableEq, Repr

/-- `get_google_place_id` (`main.py` lines 75-95): returns `none` without
calling out when no API key is configured; otherwise issues the lookup and
returns the first candidate's `place_id` when the body reports status `OK`
with a non-empty candidate list, and `none` in every other case (non-OK
status, no candidates, transport/JSON failure, missing `place_id` key —
the `try/except` swallows every exception).  The second component records
whether the HTTP call was issued. -/
def get_google_place_id (apiKey : Option String) (pr : PlacesResult) :
    Option String × List ExtCall :=
  match apiKey with
  | none => (none, [])
  | some _ =>
    match pr with
    | .failure => (none, [.placesCall])
    | .response status candidates =>
      if status == some "OK" && !candidates.isEmpty then
        match candidates.headD none with
        | some pid => (some pid, [.placesCall])
        | none => (none, [.placesCall])
      else (none, [.placesCall])

/-- Lookup outcomes in which the collaborator yields no identifier:
unreachable/malformed (exception) or a decoded body without status `OK`
and a candidate, or whose first candidate lacks the `place_id` key. -/
def lookupFails (pr : PlacesResult) : Bool :=
  match pr with
  | .failure => true
  | .response status candidates =>
    !(status == some "OK") || candidates.isEmpty || (candidates.headD none).isNone

/-- Body of a `POST /api/generate-review` request: the parsed JSON object,
reduced to its optional `selectedKeywords` field (`data.get` defaults a
missing key to `[]`). -/
structure ReviewReq where
  selectedKeywords : Option (List String)
deriving DecidableEq, Repr

/-- Response of `generate_review`: the 200 payload (`main.py` lines 128-135),
the 400 validation error (line 103) or the 500 failure (line 139). -/
inductive ReviewResponse where
  | success (review prompt restaurant_name restaurant_address : String)
      (place_id : Option String) (google_review_url : String)
  | clientError (msg : String)
  | serverError (msg : String)
deriving DecidableEq, Repr

/-- HTTP status code of a `ReviewResponse`. -/
def ReviewResponse.status : ReviewResponse → Nat
  | .success _ _ _ _ _ _ => 200
  | .clientError _ => 400
  | .serverError _ => 500

/-- `generate_review` (`main.py` lines 97-139).  `groq` is the
text-generation collaborator (its reply, or the provider error the
`try/except` turns into a 500); `apiKey`/`pr` describe the places
collaborator as in `get_google_place_id`.  Returns the response together
with the trace of external calls issued. -/
def generate_review (req : ReviewReq) (r : RandSrc)
    (groq : String → Except String String) (apiKey : Option String)
    (pr : PlacesResult) : ReviewResponse × List ExtCall :=
  let selected := req.selectedKeywords.getD []
  if selected.isEmpty then (.clientError "No keywords provided", [])
  else
    match generate_prompt selected load_keywords r with
    | .error _ => (.serverError "Review generation failed", [])
    | .ok prompt =>
      match groq prompt with
      | .error _ => (.serverError "Review generation failed", [.groqCall])
      | .ok raw =>
        let lookup := get_google_place_id apiKey pr
        let url := match lookup.1 with
          | some pid => writeReviewUrl pid
          | none => googleSearchUrl
        (.success (pyStrip raw) prompt RESTAURANT_NAME RESTAURANT_ADDRESS
          lookup.1 url, .groqCall :: lookup.2)

/-- Response of `GET /api/restaurant-info` (`main.py` lines 151-157). -/
structure RestaurantInfo where
  name : String
  address : String
  place_id : Option String
  google_search_url : String
  google_review_url : String
deriving DecidableEq, Repr

/-- `get_restaurant_info` (`main.py` lines 141-157). -/
def get_restaurant_info (apiKey : Option String) (pr : PlacesResult) :
    RestaurantInfo :=
  let place_id := (get_google_place_id apiKey pr).1
  let url := match place_id with
    | some pid => writeReviewUrl pid
    | none => googleSearchUrl
  ⟨RESTAURANT_NAME, RESTAURANT_ADDRESS, place_id, googleSearchUrl, url⟩

/-- `get_keywords` (`main.py` lines 159-161), as a function of the call index
within one process lifetime: the handler reads no mutable state and rebuilds
the literal table on each call. -/
def get_keywords_at (callIndex : Nat) : KeywordData :=
  let _ := callIndex
  load_keywords

/-!
Mutation model for the frame claim (C8).  Python lists are heap objects:
`random.shuffle` mutates its argument in place, while `+` and the sampling
functions allocate fresh lists.  A `Heap` maps locations (indices) to list
values, and `generate_prompt_heap` replays `generate_prompt` line by line
with the caller's three lists living at given locations.
-/

/-- A Python list object: either a list of strings or the SEO table. -/
inductive PyVal where
  | strs (l : List String)
  | seos (l : List SeoKeyword)
deriving DecidableEq, Repr

/-- Contents of a `PyVal` viewed as a string list. -/
def PyVal.asStrs : PyVal → List String
  | .strs l => l
  | .seos _ => []

/-- Contents of a `PyVal` viewed as an SEO table. -/
def PyVal.asSeos : PyVal → List SeoKeyword
  | .strs _ => []
  | .seos l => l

/-- A heap of Python list objects; locations are indices into `cells`. -/
structure Heap where
  cells : List PyVal
deriving DecidableEq, Repr

/-- Dereference a location. -/
def Heap.read (h : Heap) (l : Nat) : PyVal :=
  h.cells.getD l (.strs [])

/-- Allocate a fresh object, returning the new heap and its location. -/
def Heap.alloc (h : Heap) (v : PyVal) : Heap × Nat :=
  (⟨h.cells ++ [v]⟩, h.cells.length)

/-- Overwrite the object at a location (in-place mutation). -/
def Heap.write (h : Heap) (l : Nat) (v : PyVal) : Heap :=
  ⟨h.cells.set l v⟩

/-- `generate_prompt` with explicit heap effects (`main.py` lines 62-73):
the caller's keyword list lives at `ukLoc` and the table's backend and SEO
lists at `bLoc` and `sLoc`.  `random.sample` and `select_weighted_seo`
allocate their fresh result lists; `+` allocates the fresh combined list;
`random.shuffle` mutates only that freshly allocated list.  Returns the
prompt and the final heap. -/
def generate_prompt_heap (h : Heap) (ukLoc bLoc sLoc : Nat) (r : RandSrc) :
    Except PyError (String × Heap) :=
  match pySample2 (h.read bLoc).asStrs r.sampleI r.sampleJ with
  | .error e => .error e
  | .ok backendVals =>
    let h1 := (h.alloc (.strs backendVals)).1
    match select_weighted_seo (h1.read sLoc).asSeos 2 r.choiceDraws with
    | .error e => .error e
    | .ok seoVals =>
      let h2 := (h1.alloc (.strs seoVals)).1
      let h3 := (h2.alloc (.strs ((h2.read ukLoc).asStrs ++ backendVals ++ seoVals))).1
      let allLoc := (h2.alloc (.strs ((h2.read ukLoc).asStrs ++ backendVals ++ seoVals))).2
      let h4 := h3.write allLoc (.strs (pyShuffle r.shufflePerm (h3.read allLoc).asStrs))
      .ok (mkPrompt (h4.read allLoc).asStrs, h4)

/-! Helper lemmas shared by the claim theorems. -/

/-- Every element of a list is a substring of its `pyJoin`. -/
theorem pyJoin_mem_substr (sep x : String) (l : List String) (hx : x ∈ l) :
    x.data <:+: (pyJoin sep l).data := by
  induction l with
  | nil => cases hx
  | cons y ys ih =>
    cases ys with
    | nil =>
      rcases List.mem_singleton.mp hx with rfl
      exact List.infix_rfl
    | cons z zs =>
      rcases List.mem_cons.mp hx with rfl | hmem
      · show x.data <:+: (x ++ sep ++ pyJoin sep (z :: zs)).data
        rw [String.data_append, String.data_append, List.append_assoc]
        exact ( List.prefix_append x.data _).isInfix
      · have h1 := ih hmem
        have h2 : (pyJoin sep (z :: zs)).data <:+
            (y ++ sep ++ pyJoin sep (z :: zs)).data := by
          rw [String.data_append]
          exact List.suffix_append _ _
        exact h1.trans h2.isInfix

/-- Shuffling preserves membership (a valid permutation reorders; an
out-of-shape permutation is the identity). -/
theorem mem_pyShuffle (p : List Nat) (l : List String) (x : String)
    (hx : x ∈ l) : x ∈ pyShuffle p l := by
  unfold pyShuffle
  cases hv : isValidPerm p l.length with
  | false => simpa [hv] using hx
  | true =>
    obtain ⟨hlen, hall⟩ := of_decide_eq_true hv
    obtain ⟨⟨n, hn⟩, hget⟩ := List.mem_iff_get.mp hx
    have hmem : n ∈ p := hall n hn
    simp only [hv, if_true, applyPerm]
    refine List.mem_map.mpr ⟨n, hmem, ?_⟩
    rw [List.getD_eq_getElem l "" hn]
    exact hget

/-- Every keyword passed to the template occurs in the produced prompt. -/
theorem strContains_mkPrompt (l : List String) (x : String) (hx : x ∈ l) :
    strContains (mkPrompt l) x := by
  unfold strContains mkPrompt
  rw [String.data_append, String.data_append]
  exact ((pyJoin_mem_substr ", " x l hx).trans
      (List.suffix_append templateHead.data _).isInfix).trans
    ( List.prefix_append _ templateTail.data).isInfix

/-- On the fixed table of `load_keywords` the sampling steps always succeed. -/
theorem generate_prompt_load_ok (uk : List String) (r : RandSrc) :
    ∃ s, generate_prompt uk load_keywords r = .ok s :=
  ⟨_, rfl⟩

/-- The place lookup yields no identifier on every failing outcome. -/
theorem get_place_id_none_of_fails (apiKey : Option String) (pr : PlacesResult)
    (hf : lookupFails pr = true) : (get_google_place_id apiKey pr).1 = none := by
  cases apiKey with
  | none => rfl
  | some k =>
    cases pr with
    | failure => rfl
    | response st cands =>
      cases hok : st == some "OK" with
      | false => simp [get_google_place_id, hok]
      | true =>
        cases cands with
        | nil => simp [get_google_place_id, hok]
        | cons c cs =>
          simp only [lookupFails, hok, Bool.not_true, Bool.false_or,
            List.isEmpty_cons, List.headD_cons] at hf
          cases c with
          | none => simp [get_google_place_id, hok]
          | some pid => simp at hf

/-- Allocation does not change existing cells. -/
theorem Heap.read_alloc (h : Heap) (v : PyVal) (l : Nat)
    (hl : l < h.cells.length) : (h.alloc v).1.read l = h.read l := by
  unfold Heap.alloc Heap.read
  exact List.getD_append _ _ _ _ hl

/-- Writing one location does not change a different location. -/
theorem Heap.read_write_ne (h : Heap) (l m : Nat) (v : PyVal) (hne : m ≠ l) :
    (h.write m v).read l = h.read l := by
  unfold Heap.write Heap.read
  rw [List.getD_eq_getElem?_getD, List.getD_eq_getElem?_getD,
    List.getElem?_set_ne hne]

/-- Allocation grows the heap by one cell. -/
theorem Heap.length_alloc (h : Heap) (v : PyVal) :
    (h.alloc v).1.cells.length = h.cells.length + 1 := by
  unfold Heap.alloc
  simp

/-- After three allocations and a write to the third freshly allocated cell,
every originally valid location reads as before. -/
theorem Heap.read_after_flow (h : Heap) (v1 v2 v3 v4 : PyVal) (l : Nat)
    (hl : l < h.cells.length) :
    (((((h.alloc v1).1.alloc v2).1.alloc v3).1).write
        ((((h.alloc v1).1.alloc v2).1.alloc v3).2) v4).read l = h.read l := by
  have l1 := Heap.length_alloc h v1
  have l2 := Heap.length_alloc (h.alloc v1).1 v2
  have hloc : (((h.alloc v1).1.alloc v2).1.alloc v3).2 =
      ((h.alloc v1).1.alloc v2).1.cells.length := rfl
  rw [hloc, Heap.read_write_ne _ _ _ _ (by omega),
    Heap.read_alloc _ _ _ (by omega), Heap.read_alloc _ _ _ (by omega),
    Heap.read_alloc _ _ _ hl]

/-- A successful `generate_review` reports exactly the looked-up place id and
builds its URL from it (deep link when present, fallback otherwise). -/
theorem generate_review_success_fields (req : ReviewReq) (r : RandSrc)
    (groq : String → Except String String) (apiKey : Option String)
    (pr : PlacesResult) (rev prm nm addr : String) (pid : Option String)
    (url : String)
    (h : (generate_review req r groq apiKey pr).1 =
      .success rev prm nm addr pid url) :
    pid = (get_google_place_id apiKey pr).1 ∧
      url = match (get_google_place_id apiKey pr).1 with
        | some p => writeReviewUrl p
        | none => googleSearchUrl := by
  unfold generate_review at h
  dsimp only at h
  by_cases he : (req.selectedKeywords.getD []).isEmpty = true
  · rw [if_pos he] at h; simp at h
  · rw [if_neg he] at h
    cases hp : generate_prompt (req.selectedKeywords.getD []) load_keywords r with
    | error e => rw [hp] at h; simp at h
    | ok prompt =>
      rw [hp] at h
      dsimp only at h
      cases hg : groq prompt with
      | error e => rw [hg] at h; simp at h
      | ok raw =>
        rw [hg] at h
        simp only [ReviewResponse.success.injEq] at h
        obtain ⟨_, _, _, _, h5, h6⟩ := h
        exact ⟨h5.symm, h6.symm⟩

/-! Claim theorems. -/

/-- C1: for every (non-empty) list of caller-supplied keywords, every
keyword table and every outcome of the random draws, the instruction string
`generate_prompt` produces contains every supplied keyword as a substring. -/
theorem C1_prompt_contains_user_keywords (uk : List String) (kd : KeywordData)
    (r : RandSrc) (x s : String) (hx : x ∈ uk)
    (h : generate_prompt uk kd r = .ok s) : strContains s x := by
  unfold generate_prompt at h
  cases hb : pySample2 kd.backend_keywords r.sampleI r.sampleJ with
  | error e => rw [hb] at h; simp at h
  | ok backend =>
    rw [hb] at h
    dsimp only at h
    cases hs : select_weighted_seo kd.seo_keywords 2 r.choiceDraws with
    | error e => rw [hs] at h; simp at h
    | ok seo =>
      rw [hs] at h
      simp only [Except.ok.injEq] at h
      rw [← h]
      exact strContains_mkPrompt _ x (mem_pyShuffle _ _ x
        (List.mem_append_left _ (List.mem_append_left _ hx)))

/-- The concrete prompt produced for the witness input of C1. -/
def C1prompt : String :=
  match generate_prompt ["yummy"] load_keywords ⟨0, 1, [0, 0], []⟩ with
  | .ok s => s
  | .error _ => ""

/-- Witness for C1 at a concrete input. -/
theorem C1_witness : strContains C1prompt "yummy" :=
  C1_prompt_contains_user_keywords ["yummy"] load_keywords ⟨0, 1, [0, 0], []⟩
    "yummy" C1prompt (by decide) rfl

/-- C2: a review-generation request with a missing or empty
`selectedKeywords` list gets HTTP 400 and triggers no external call. -/
theorem C2_empty_keywords_rejected (req : ReviewReq) (r : RandSrc)
    (groq : String → Except String String) (apiKey : Option String)
    (pr : PlacesResult)
    (hk : req.selectedKeywords = none ∨ req.selectedKeywords = some []) :
    (generate_review req r groq apiKey pr).1.status = 400 ∧
      (generate_review req r groq apiKey pr).2 = [] := by
  rcases hk with hk | hk <;>
    simp [generate_review, hk, ReviewResponse.status]

/-- Witness for C2 at a concrete request with an empty keyword list. -/
theorem C2_witness :
    (generate_review ⟨some []⟩ ⟨0, 1, [0, 0], []⟩ (fun _ => .ok "nice") none
        .failure).1.status = 400 ∧
      (generate_review ⟨some []⟩ ⟨0, 1, [0, 0], []⟩ (fun _ => .ok "nice") none
        .failure).2 = [] :=
  C2_empty_keywords_rejected ⟨some []⟩ ⟨0, 1, [0, 0], []⟩ (fun _ => .ok "nice")
    none .failure (Or.inr rfl)

/-- C5: weighted SEO selection on an empty table fails with
`InvalidInputError`, for every requested count and every random draw. -/
theorem C5_empty_seo_table_errors (count : Nat) (draws : List Nat) :
    select_weighted_seo [] count draws = .error .invalidInput := rfl

/-- C6 counterexample: the backend list `["a", "a", "b"]` has two distinct
entries, yet `random.sample` drawing the (distinct, in-range) positions 0
and 1 returns the duplicate pair `["a", "a"]` — the claim as stated fails. -/
theorem C6_counterexample :
    ("a" ∈ (["a", "a", "b"] : List String) ∧
        "b" ∈ (["a", "a", "b"] : List String) ∧ ("a" : String) ≠ "b") ∧
      sampleValid ["a", "a", "b"] 0 1 ∧
      pySample2 ["a", "a", "b"] 0 1 = .ok ["a", "a"] := by
  exact ⟨by decide, by decide, rfl⟩

/-- C6 (amended): backend sampling draws from two distinct positions, so
whenever the backend list has at least 2 entries and its entries are
pairwise distinct (no duplicate entries), the two returned phrases are
never duplicates of each other, whatever the random source does. -/
theorem C6_amended_nodup_sample_distinct (l : List String) (i j : Nat)
    (res : List String) (hnd : l.Nodup) (hv : sampleValid l i j)
    (hres : pySample2 l i j = .ok res) :
    res = [l.getD i "", l.getD j ""] ∧ l.getD i "" ≠ l.getD j "" := by
  obtain ⟨hi, hj, hij⟩ := hv
  have hlen : ¬ l.length < 2 := by omega
  unfold pySample2 at hres
  rw [if_neg hlen] at hres
  simp only [Except.ok.injEq] at hres
  refine ⟨hres.symm, ?_⟩
  rw [List.getD_eq_getElem l "" hi, List.getD_eq_getElem l "" hj]
  intro heq
  have h2 : (⟨i, hi⟩ : Fin l.length) = ⟨j, hj⟩ :=
    (List.Nodup.get_inj_iff hnd).mp heq
  exact hij (by simpa using congrArg Fin.val h2)

/-- Witness for the amended C6 at a concrete duplicate-free list. -/
theorem C6_witness :
    (["x", "y"] : List String) =
        [List.getD ["x", "y"] 0 "", List.getD ["x", "y"] 1 ""] ∧
      List.getD (["x", "y"] : List String) 0 "" ≠ List.getD ["x", "y"] 1 "" :=
  C6_amended_nodup_sample_distinct ["x", "y"] 0 1 ["x", "y"] (by decide)
    (by decide) rfl

/-- C7: backend phrase sampling fails with `InvalidInputError` whenever the
backend list has fewer than 2 entries, whatever indices the generator would
have drawn. -/
theorem C7_short_backend_list_errors (l : List String) (i j : Nat)
    (h : l.length < 2) : pySample2 l i j = .error .invalidInput := by
  unfold pySample2
  rw [if_pos h]

/-- Witness for C7 on the empty backend list. -/
theorem C7_witness : pySample2 [] 0 1 = .error .invalidInput :=
  C7_short_backend_list_errors [] 0 1 (by decide)

/-- C9: `GET /api/keywords` reads no mutable state, so any two calls within
one process lifetime return identical keyword data (same three lists, same
entries, weights and order — hence byte-identical once serialized). -/
theorem C9_keywords_idempotent (m n : Nat) :
    get_keywords_at m = get_keywords_at n := rfl

/-- C10: the fixed table of `load_keywords` satisfies the sampling
preconditions (non-empty SEO list with positive weights, at least 2 backend
phrases), and consequently `generate_prompt` on that table never reaches an
error branch, for every request and every random draw. -/
theorem C10_table_satisfies_preconditions :
    (load_keywords.seo_keywords.isEmpty = false ∧
      load_keywords.seo_keywords.all (fun k => decide (0 < k.weight)) = true ∧
      2 ≤ load_keywords.backend_keywords.length) ∧
    ∀ (uk : List String) (r : RandSrc),
      ∃ s, generate_prompt uk load_keywords r = .ok s :=
  ⟨by decide, fun uk r => generate_prompt_load_ok uk r⟩

/-- C3: every failing places outcome — unreachable service, malformed
response, non-OK status, no candidates — yields "not found" (`none`) rather
than an error, and in the review-generation flow a lookup failure degrades
to the fallback search URL with the request still completing successfully. -/
theorem C3_lookup_failure_degrades :
    (∀ (apiKey : Option String) (pr : PlacesResult), lookupFails pr = true →
      (get_google_place_id apiKey pr).1 = none) ∧
    (∀ (ks : List String) (r : RandSrc) (groq : String → Except String String)
        (apiKey : Option String) (pr : PlacesResult),
      ks ≠ [] → (∀ p, ∃ t, groq p = .ok t) → lookupFails pr = true →
      ∃ rev prm, (generate_review ⟨some ks⟩ r groq apiKey pr).1 =
        .success rev prm RESTAURANT_NAME RESTAURANT_ADDRESS none
          googleSearchUrl) := by
  refine ⟨fun apiKey pr hf => get_place_id_none_of_fails apiKey pr hf, ?_⟩
  intro ks r groq apiKey pr hks hq hf
  obtain ⟨prm, hprm⟩ := generate_prompt_load_ok ks r
  obtain ⟨t, ht⟩ := hq prm
  have hisE : ks.isEmpty = false := by
    cases ks with
    | nil => exact absurd rfl hks
    | cons a as => rfl
  have hlook := get_place_id_none_of_fails apiKey pr hf
  refine ⟨pyStrip t, prm, ?_⟩
  simp only [generate_review, Option.getD_some, hisE, Bool.false_eq_true,
    if_false, hprm, ht, hlook]

/-- The deep-link URL contains the place id it was built from. -/
theorem strContains_writeReviewUrl (pid : String) :
    strContains (writeReviewUrl pid) pid := by
  unfold strContains writeReviewUrl
  rw [String.data_append]
  exact (List.suffix_append _ _).isInfix

set_option maxRecDepth 8192 in
/-- C4: on `GET /api/restaurant-info` and on the review-generation success
path, a found place id appears in the returned review URL (deep link), and
with no id the returned URL is the generic search URL, which contains the
URL-escaped restaurant name and address. -/
theorem C4_review_url_shape :
    (∀ (apiKey : Option String) (pr : PlacesResult) (pid : String),
      (get_google_place_id apiKey pr).1 = some pid →
      (get_restaurant_info apiKey pr).google_review_url = writeReviewUrl pid ∧
        strContains (writeReviewUrl pid) pid) ∧
    (∀ (apiKey : Option String) (pr : PlacesResult),
      (get_google_place_id apiKey pr).1 = none →
      (get_restaurant_info apiKey pr).google_review_url = googleSearchUrl) ∧
    (∀ (req : ReviewReq) (r : RandSrc) (groq : String → Except String String)
        (apiKey : Option String) (pr : PlacesResult)
        (rev prm nm addr pid url : String),
      (generate_review req r groq apiKey pr).1 =
        .success rev prm nm addr (some pid) url →
      url = writeReviewUrl pid ∧ strContains url pid) ∧
    (∀ (req : ReviewReq) (r : RandSrc) (groq : String → Except String String)
        (apiKey : Option String) (pr : PlacesResult)
        (rev prm nm addr url : String),
      (generate_review req r groq apiKey pr).1 =
        .success rev prm nm addr none url →
      url = googleSearchUrl) ∧
    (strContains googleSearchUrl (pyQuote RESTAURANT_NAME) ∧
      strContains googleSearchUrl (pyQuote RESTAURANT_ADDRESS)) := by
  refine ⟨?_, ?_, ?_, ?_, by decide, by decide⟩
  · intro apiKey pr pid hp
    unfold get_restaurant_info
    dsimp only
    rw [hp]
    exact ⟨rfl, strContains_writeReviewUrl pid⟩
  · intro apiKey pr hp
    unfold get_restaurant_info
    dsimp only
    rw [hp]
  · intro req r groq apiKey pr rev prm nm addr pid url h
    obtain ⟨h5, h6⟩ :=
      generate_review_success_fields req r groq apiKey pr rev prm nm addr
        (some pid) url h
    rw [← h5] at h6
    dsimp only at h6
    exact ⟨h6, h6 ▸ strContains_writeReviewUrl pid⟩
  · intro req r groq apiKey pr rev prm nm addr url h
    obtain ⟨h5, h6⟩ :=
      generate_review_success_fields req r groq apiKey pr rev prm nm addr
        none url h
    rw [← h5] at h6
    exact h6

/-- C8: the heap-level replay of `generate_prompt` leaves the caller's
keyword list and both table lists untouched — the shuffle mutates only the
freshly allocated combined list. -/
theorem C8_no_request_time_mutation (h : Heap) (u b s : Nat) (r : RandSrc)
    (p : String) (h' : Heap) (hu : u < h.cells.length)
    (hb : b < h.cells.length) (hs : s < h.cells.length)
    (hok : generate_prompt_heap h u b s r = .ok (p, h')) :
    h'.read u = h.read u ∧ h'.read b = h.read b ∧ h'.read s = h.read s := by
  unfold generate_prompt_heap at hok
  cases hbk : pySample2 (h.read b).asStrs r.sampleI r.sampleJ with
  | error e => rw [hbk] at hok; simp at hok
  | ok backendVals =>
    rw [hbk] at hok
    dsimp only at hok
    cases hseo : select_weighted_seo
        ((h.alloc (.strs backendVals)).1.read s).asSeos 2 r.choiceDraws with
    | error e => rw [hseo] at hok; simp at hok
    | ok seoVals =>
      rw [hseo] at hok
      simp only [Except.ok.injEq, Prod.mk.injEq] at hok
      obtain ⟨-, hh⟩ := hok
      subst hh
      refine ⟨?_, ?_, ?_⟩
      · exact Heap.read_after_flow h _ _ _ _ u hu
      · exact Heap.read_after_flow h _ _ _ _ b hb
      · exact Heap.read_after_flow h _ _ _ _ s hs

/-- Witness for C3: an unreachable places service at a concrete request. -/
theorem C3_witness :
    (get_google_place_id (some "key") .failure).1 = none ∧
      ∃ rev prm, (generate_review ⟨some ["yum"]⟩ ⟨0, 1, [0, 0], []⟩
          (fun _ => .ok " nice ") (some "key") .failure).1 =
        .success rev prm RESTAURANT_NAME RESTAURANT_ADDRESS none
          googleSearchUrl :=
  ⟨C3_lookup_failure_degrades.1 (some "key") .failure rfl,
   C3_lookup_failure_degrades.2 ["yum"] ⟨0, 1, [0, 0], []⟩
     (fun _ => .ok " nice ") (some "key") .failure (by decide)
     (fun _ => ⟨" nice ", rfl⟩) rfl⟩

/-- Witness for C4: a lookup match and a lookup failure at concrete inputs. -/
theorem C4_witness :
    ((get_restaurant_info (some "key")
          (.response (some "OK") [some "PID"])).google_review_url =
        writeReviewUrl "PID" ∧ strContains (writeReviewUrl "PID") "PID") ∧
      (get_restaurant_info (some "key") .failure).google_review_url =
        googleSearchUrl :=
  ⟨C4_review_url_shape.1 (some "key") (.response (some "OK") [some "PID"])
      "PID" rfl,
   C4_review_url_shape.2.1 (some "key") .failure rfl⟩

/-- Concrete input heap for the C8 witness: the caller's list at location 0,
the backend list at 1, the SEO table at 2. -/
def C8heapIn : Heap :=
  ⟨[.strs ["k"], .strs ["b1", "b2"], .seos [⟨"w", 1⟩]]⟩

/-- Result of the heap-level prompt generation on the C8 witness input. -/
def C8result : String × Heap :=
  match generate_prompt_heap C8heapIn 0 1 2 ⟨0, 1, [0, 0], []⟩ with
  | .ok pr => pr
  | .error _ => ("", ⟨[]⟩)

/-- Witness for C8 at a concrete heap. -/
theorem C8_witness :
    C8result.2.read 0 = C8heapIn.read 0 ∧
      C8result.2.read 1 = C8heapIn.read 1 ∧
      C8result.2.read 2 = C8heapIn.read 2 :=
  C8_no_request_time_mutation C8heapIn 0 1 2 ⟨0, 1, [0, 0], []⟩ C8result.1
    C8result.2 (by decide) (by decide) (by decide) rfl

end ReviewAI
